import Mathlib

set_option maxRecDepth 8000

/-!
Shallow embedding of the test orchestrator in `src/test_comprehensive.py`
(class `TestOrchestrator`).  Python strings are modelled as `String`/`List Char`,
Python floats as `ℚ` (every numeric literal involved is an exact decimal),
`None`-able values as `Option`, and the regular expressions used by the
extractors as explicit character-list scanners with the same leftmost-match
semantics.
-/

/-! ## Character-list helpers mirroring Python string primitives -/

/-- Does `hay` start with `needle`?  (Used to model substring search.) -/
def charsStartWith : List Char → List Char → Bool
  | _, [] => true
  | [], _ :: _ => false
  | c :: t, n :: nt => c = n && charsStartWith t nt

/-- Python `needle in hay` substring test. -/
def charsContain : List Char → List Char → Bool
  | [], needle => needle.isEmpty
  | c :: t, needle => charsStartWith (c :: t) needle || charsContain t needle

/-- Python `needle in hay` on `String`s. -/
def strContains (hay needle : String) : Bool :=
  charsContain hay.toList needle.toList

/-- Python `str.lower()` (ASCII, which is all the source uses). -/
def lowerChars (cs : List Char) : List Char :=
  cs.map Char.toLower

/-- Python `str.split(sep)` for a one-character separator: keeps empty pieces,
    `"".split(c) == [""]`. -/
def splitCharsOn (sep : Char) : List Char → List (List Char)
  | [] => [[]]
  | c :: rest =>
    match splitCharsOn sep rest with
    | h :: t => if c = sep then [] :: h :: t else (c :: h) :: t
    | [] => [[c]]

/-- Worker for `replaceChars`; the fuel is an upper bound on the number of
    steps (one character or one pattern occurrence is consumed per step), so
    `l.length` fuel always suffices. -/
def replaceCharsFuel (pat rep : List Char) : Nat → List Char → List Char
  | 0, l => l
  | _ + 1, [] => []
  | fuel + 1, c :: rest =>
    if !pat.isEmpty && charsStartWith (c :: rest) pat then
      rep ++ replaceCharsFuel pat rep fuel ((c :: rest).drop pat.length)
    else
      c :: replaceCharsFuel pat rep fuel rest

/-- Python `str.replace(pat, rep)`: left-to-right, non-overlapping. -/
def replaceChars (pat rep l : List Char) : List Char :=
  replaceCharsFuel pat rep l.length l

/-! ## The number/unit scanners modelling the `re.search` calls

The source uses three regular-expression shapes:
`(\d+(?:\.\d+)?)%`, `coverage:\s*(\d+(?:\.\d+)?)%`, and
`(\d+(?:\.\d+)?)\s*UNIT` for `UNIT ∈ {ms, rps, mb}`.  `re.search` returns the
leftmost match; greedy `\d+` never needs to backtrack here because no digit
can begin the continuation (`.`, `%`, whitespace, `m`, `r`), so the scanners
below are exact models. -/

/-- Numeric value of a digit string. -/
def digitsVal (ds : List Char) : Nat :=
  ds.foldl (fun a c => a * 10 + (c.toNat - 48)) 0

/-- Value of `intDs . fracDs` as a rational (Python `float(...)` on the
    matched decimal literal). -/
def numVal (intDs fracDs : List Char) : ℚ :=
  (digitsVal intDs : ℚ) + (digitsVal fracDs : ℚ) / (10 : ℚ) ^ fracDs.length

/-- Python regex `\s` character class. -/
def isSpaceChar (c : Char) : Bool :=
  c = ' ' || c = '\t' || c = '\n' || c = '\r' || c.toNat = 11 || c.toNat = 12

/-- Try to match `(\d+(?:\.\d+)?)` at the head of `cs`, with `after` deciding
    whether the regex continuation matches the remaining text.  The optional
    fraction group is greedy with the single backtracking step Python would
    perform. -/
def matchNumThen (after : List Char → Bool) (cs : List Char) : Option ℚ :=
  let intDs := cs.takeWhile Char.isDigit
  if intDs.isEmpty then none
  else
    match cs.drop intDs.length with
    | '.' :: r2 =>
      let fracDs := r2.takeWhile Char.isDigit
      if !fracDs.isEmpty && after (r2.drop fracDs.length) then some (numVal intDs fracDs)
      else if after ('.' :: r2) then some (numVal intDs []) else none
    | rest => if after rest then some (numVal intDs []) else none

/-- Continuation for the `...%` patterns: a literal percent sign. -/
def afterPercent : List Char → Bool
  | '%' :: _ => true
  | _ => false

/-- Continuation for the `...\s*UNIT` patterns. -/
def afterUnit (unit : List Char) (cs : List Char) : Bool :=
  charsStartWith (cs.dropWhile isSpaceChar) unit

/-- `re.search` for a number followed by `after`: leftmost match wins. -/
def searchNumThen (after : List Char → Bool) : List Char → Option ℚ
  | [] => none
  | c :: rest =>
    match matchNumThen after (c :: rest) with
    | some v => some v
    | none => searchNumThen after rest

/-- `re.search(r'coverage:\s*(\d+(?:\.\d+)?)%', line)`. -/
def searchCoverageNum : List Char → Option ℚ
  | [] => none
  | c :: rest =>
    match (if charsStartWith (c :: rest) ("coverage:".toList) then
             matchNumThen afterPercent (((c :: rest).drop 9).dropWhile isSpaceChar)
           else none) with
    | some v => some v
    | none => searchCoverageNum rest

/-- The per-line loop shape of `_extract_coverage`: on the first line where
    the guard holds and the regex matches, return that value; a guarded line
    whose regex fails does not stop the scan. -/
def scanLines (p : List Char → Bool) (f : List Char → Option ℚ) : List (List Char) → Option ℚ
  | [] => none
  | l :: ls =>
    if p l then
      match f l with
      | some v => some v
      | none => scanLines p f ls
    else scanLines p f ls

/-! ## `TestOrchestrator._extract_coverage` -/

/-- `TestOrchestrator._extract_coverage(output, test_type)`.  The `try` block
    cannot raise in this model, so the `except → return None` path is the
    final `none`. -/
def extract_coverage (output : String) (test_type : String) : Option ℚ :=
  let lines := splitCharsOn '\n' output.toList
  let lowerOut := lowerChars output.toList
  let lowerType := lowerChars test_type.toList
  if charsContain lowerOut ("vitest".toList) || charsContain lowerOut ("jest".toList) then
    scanLines (fun line => charsContain line ("All files".toList) && charsContain line ("%".toList))
      (fun line => searchNumThen afterPercent line) lines
  else if charsContain lowerType ("mvn".toList) then
    scanLines (fun line => charsContain line ("Total".toList) && charsContain line ("%".toList))
      (fun line => searchNumThen afterPercent line) lines
  else if charsContain lowerType ("go test".toList) then
    scanLines (fun line => charsContain line ("coverage:".toList) && charsContain line ("%".toList))
      (fun line => searchCoverageNum line) lines
  else none

/-! ## `TestOrchestrator._extract_performance_metrics` -/

/-- The `metrics` dict of `_extract_performance_metrics`: keys are only ever
    added with a numeric value, so the dict is modelled by three optional
    fields, and "empty dict" is all-`none`. -/
structure PerfMetrics where
  latency_ms : Option ℚ := none
  throughput_rps : Option ℚ := none
  memory_mb : Option ℚ := none
deriving DecidableEq, Repr

/-- The empty `metrics` dict. -/
def emptyMetrics : PerfMetrics := {}

/-- One iteration of the `for line in lines` loop of
    `_extract_performance_metrics`: three independent guarded regex searches,
    each overwriting its field on success (so the last matching line wins). -/
def updateMetricsLine (m : PerfMetrics) (line : List Char) : PerfMetrics :=
  let lower := lowerChars line
  let m :=
    if charsContain lower ("latency".toList) || charsContain line ("ms".toList) then
      match searchNumThen (afterUnit ("ms".toList)) line with
      | some v => { m with latency_ms := some v }
      | none => m
    else m
  let m :=
    if charsContain lower ("throughput".toList) || charsContain line ("rps".toList) then
      match searchNumThen (afterUnit ("rps".toList)) line with
      | some v => { m with throughput_rps := some v }
      | none => m
    else m
  let m :=
    if charsContain lower ("memory".toList) || charsContain line ("mb".toList) then
      match searchNumThen (afterUnit ("mb".toList)) line with
      | some v => { m with memory_mb := some v }
      | none => m
    else m
  m

/-- `TestOrchestrator._extract_performance_metrics(output)`; the final
    `return metrics if metrics else None` maps the empty dict to `None`. -/
def extract_performance_metrics (output : String) : Option PerfMetrics :=
  let m := (splitCharsOn '\n' output.toList).foldl updateMetricsLine emptyMetrics
  if m = emptyMetrics then none else some m

/-! ## Data model: `TestResult`, `TestSuite` -/

/-- The `TestResult` dataclass. -/
structure TestResult where
  name : String
  type : String
  status : String
  duration : ℚ
  message : String
  coverage : Option ℚ := none
  performance_metrics : Option PerfMetrics := none
  error_details : Option String := none
deriving DecidableEq, Repr

/-- The `TestSuite` dataclass. -/
structure TestSuite where
  name : String
  type : String
  command : String
  working_dir : String
  timeout : Nat := 300
  coverage_threshold : ℚ := 80.0
  performance_threshold : Option (List (String × ℚ)) := none
deriving Repr

/-! ## `TestOrchestrator._run_test_suite`

The child process is an opaque external collaborator (spec §1): its behaviour
at one invocation is reified as a `ProcResult` — a normal completion with exit
code and captured output, a `subprocess.TimeoutExpired`, or any other
exception raised inside the `try` block (launch failure etc.), carrying its
`str(e)` message. -/

/-- Outcome of the `subprocess.run` call (or of the surrounding `try` body). -/
inductive ProcResult where
  | completed (returncode : Int) (stdout stderr : String)
  | timedOut
  | raised (msg : String)
deriving Repr

/-- Body of `_run_test_suite`: the `try/except subprocess.TimeoutExpired/
    except Exception` classification.  `elapsed` is the wall-clock
    `time.time() - start_time` at the point the branch computes a duration. -/
def run_test_suite (suite : TestSuite) (proc : ProcResult) (elapsed : ℚ) : TestResult :=
  match proc with
  | .completed rc out err =>
    let status := if rc = 0 then "passed" else "failed"
    let message :=
      if rc = 0 then suite.name ++ " completed successfully"
      else suite.name ++ " failed with return code " ++ toString rc
    let coverage := if rc = 0 then extract_coverage out suite.type else none
    let performance_metrics :=
      if suite.type = "performance" then extract_performance_metrics out else none
    { name := suite.name, type := suite.type, status := status, duration := elapsed,
      message := message, coverage := coverage,
      performance_metrics := performance_metrics,
      error_details := if rc ≠ 0 then some err else none }
  | .timedOut =>
    { name := suite.name, type := suite.type, status := "error",
      duration := (suite.timeout : ℚ),
      message := suite.name ++ " timed out after " ++ toString suite.timeout ++ " seconds",
      error_details := some "Test execution timeout" }
  | .raised msg =>
    { name := suite.name, type := suite.type, status := "error", duration := elapsed,
      message := suite.name ++ " failed with exception: " ++ msg,
      error_details := some msg }

/-- The process-wide working directory mutated by `os.chdir`. -/
structure RunState where
  cwd : String
deriving DecidableEq, Repr

/-- `os.chdir(dir)`. -/
def chdir (dir : String) (s : RunState) : RunState :=
  { s with cwd := dir }

/-- `_run_test_suite` with its working-directory effect made explicit:
    `original_dir = os.getcwd(); os.chdir(suite.working_dir); try: ...
    finally: os.chdir(original_dir)`.  Exceptions of the `try` body are
    already reified in `proc`, so the `finally` re-`chdir` runs on every
    path, exactly as in the source. -/
def run_test_suite_st (s0 : RunState) (suite : TestSuite) (proc : ProcResult)
    (elapsed : ℚ) : TestResult × RunState :=
  let original_dir := s0.cwd
  let s1 := chdir suite.working_dir s0
  let result := run_test_suite suite proc elapsed
  (result, chdir original_dir s1)

/-! ## `TestOrchestrator.run_all_tests` (scheduler) -/

/-- What one `executor.submit(self._run_test_suite, suite)` future delivers:
    either the suite's `TestResult`, or — if the runner itself crashed — the
    exception observed by `future.result()`. -/
inductive FutureResult where
  | ok (r : TestResult)
  | exn (msg : String)

/-- The synthetic outcome appended by the `except` branch of the
    `for future in as_completed(futures)` loop. -/
def synthetic_error (msg : String) : TestResult :=
  { name := "Unknown", type := "error", status := "error", duration := 0.0,
    message := msg, error_details := some msg }

/-- The `if suite.type == ... and include_... / elif ...` selection chain of
    `run_all_tests`. -/
def suiteSelected (suite : TestSuite) (iu ii ie ip iui isys : Bool) : Bool :=
  if suite.type = "unit" then iu
  else if suite.type = "integration" then ii
  else if suite.type = "e2e" then ie
  else if suite.type = "performance" then ip
  else if suite.type = "ui" then iui
  else if suite.type = "system" then isys
  else false

/-- The `filtered_suites` list built by `run_all_tests`. -/
def filtered_suites (iu ii ie ip iui isys : Bool) (suites : List TestSuite) : List TestSuite :=
  suites.filter (fun s => suiteSelected s iu ii ie ip iui isys)

/-- The result-collection loop of `run_all_tests`: one entry is appended to
    `self.results` per submitted future — the future's result, or a synthetic
    `"Unknown"` error outcome if `future.result()` raised. -/
def collect_results (runner : TestSuite → FutureResult) (suites : List TestSuite) :
    List TestResult :=
  suites.map (fun s =>
    match runner s with
    | .ok r => r
    | .exn msg => synthetic_error msg)

/-- `run_all_tests`, up to the completion order of `as_completed` (theorems
    quantify over an arbitrary permutation of this list). -/
def run_all_tests (runner : TestSuite → FutureResult) (iu ii ie ip iui isys : Bool)
    (suites : List TestSuite) : List TestResult :=
  collect_results runner (filtered_suites iu ii ie ip iui isys suites)

/-- `TestOrchestrator._initialize_test_suites()`: the static registry. -/
def test_suites : List TestSuite :=
  [ { name := "Backend Unit Tests", type := "unit", command := "npm run test:backend",
      working_dir := ".", coverage_threshold := 90.0 },
    { name := "Frontend Unit Tests", type := "unit", command := "npm run test:frontend",
      working_dir := ".", coverage_threshold := 85.0 },
    { name := "E2E Tests", type := "e2e", command := "npm run test:e2e",
      working_dir := ".", coverage_threshold := 80.0 },
    { name := "Integration Tests", type := "integration", command := "npm run test:integration",
      working_dir := ".", coverage_threshold := 85.0 },
    { name := "Performance Tests", type := "performance", command := "npm run test:performance",
      working_dir := ".", coverage_threshold := 0.0 },
    { name := "Java Unit Tests", type := "unit", command := "mvn test -Pcoverage",
      working_dir := ".", coverage_threshold := 90.0 },
    { name := "Java Integration Tests", type := "integration", command := "mvn verify -Pcoverage",
      working_dir := ".", coverage_threshold := 85.0 },
    { name := "Go Unit Tests", type := "unit", command := "go test ./operator/... -v -cover",
      working_dir := ".", coverage_threshold := 90.0 },
    { name := "Go Integration Tests", type := "integration",
      command := "go test ./operator/... -tags=integration -v",
      working_dir := ".", coverage_threshold := 85.0 },
    { name := "TinyURL System Tests", type := "system",
      command := "npm test systems/tinyurl-system/",
      working_dir := ".", coverage_threshold := 95.0 },
    { name := "Newsfeed System Tests", type := "system",
      command := "npm test systems/newsfeed-system/",
      working_dir := ".", coverage_threshold := 95.0 },
    { name := "Google Docs System Tests", type := "system",
      command := "npm test systems/google-docs-system/",
      working_dir := ".", coverage_threshold := 95.0 },
    { name := "Quora System Tests", type := "system",
      command := "npm test systems/quora-system/",
      working_dir := ".", coverage_threshold := 95.0 },
    { name := "Load Balancer System Tests", type := "system",
      command := "npm test systems/load-balancer-system/",
      working_dir := ".", coverage_threshold := 95.0 },
    { name := "Monitoring System Tests", type := "system",
      command := "npm test systems/monitoring-system/",
      working_dir := ".", coverage_threshold := 95.0 },
    { name := "Typeahead System Tests", type := "system",
      command := "npm test systems/typeahead-system/",
      working_dir := ".", coverage_threshold := 95.0 },
    { name := "Messaging System Tests", type := "system",
      command := "npm test systems/messaging-system/",
      working_dir := ".", coverage_threshold := 95.0 },
    { name := "Web Crawler System Tests", type := "system",
      command := "npm test systems/web-crawler-system/",
      working_dir := ".", coverage_threshold := 95.0 },
    { name := "DNS System Tests", type := "system",
      command := "npm test systems/dns-system/",
      working_dir := ".", coverage_threshold := 95.0 } ]

/-! ## Benchmarks and `TestOrchestrator._analyze_performance` -/

/-- One entry of `self.performance_benchmarks`. -/
structure Benchmark where
  max_latency_ms : ℚ
  min_throughput_rps : ℚ
deriving DecidableEq, Repr

/-- `self.performance_benchmarks` as a lookup (Python dict access
    `system_name in self.performance_benchmarks`). -/
def performance_benchmarks (system : String) : Option Benchmark :=
  if system = "tinyurl" then some ⟨100, 1000⟩
  else if system = "newsfeed" then some ⟨200, 500⟩
  else if system = "google_docs" then some ⟨300, 200⟩
  else if system = "quora" then some ⟨150, 800⟩
  else if system = "load_balancer" then some ⟨50, 2000⟩
  else if system = "monitoring" then some ⟨100, 1000⟩
  else if system = "typeahead" then some ⟨50, 5000⟩
  else if system = "messaging" then some ⟨100, 1000⟩
  else if system = "web_crawler" then some ⟨500, 100⟩
  else if system = "dns" then some ⟨10, 10000⟩
  else none

/-- `result.name.lower().replace(" system tests", "")` in
    `_analyze_performance`. -/
def systemNameOf (name : String) : String :=
  String.mk (replaceChars (" system tests".toList) [] (lowerChars name.toList))

/-- The bottleneck entries one result contributes inside the
    `for result in performance_results` loop of `_analyze_performance`.
    `if result.performance_metrics:` is Python truthiness: `None` and the
    empty dict are both skipped. -/
def bottlenecksOf (r : TestResult) : List String :=
  match r.performance_metrics with
  | none => []
  | some pm =>
    if pm = emptyMetrics then []
    else
      let system_name := systemNameOf r.name
      match performance_benchmarks system_name with
      | none => []
      | some benchmark =>
        (match pm.latency_ms with
         | some l =>
           if l > benchmark.max_latency_ms then
             [system_name ++ ": High latency (" ++ toString l ++ "ms)"]
           else []
         | none => []) ++
        (match pm.throughput_rps with
         | some t =>
           if t < benchmark.min_throughput_rps then
             [system_name ++ ": Low throughput (" ++ toString t ++ " rps)"]
           else []
         | none => [])

/-- The `analysis` dict returned by `_analyze_performance`. -/
structure PerfAnalysis where
  overall_performance : String
  bottlenecks : List String
  recommendations : List String
deriving Repr

/-- `TestOrchestrator._analyze_performance(performance_results)`. -/
def analyze_performance (performance_results : List TestResult) : PerfAnalysis :=
  let bottlenecks := performance_results.foldl (fun acc r => acc ++ bottlenecksOf r) []
  if bottlenecks.isEmpty then
    { overall_performance := "good", bottlenecks := bottlenecks, recommendations := [] }
  else
    { overall_performance := "needs_improvement", bottlenecks := bottlenecks,
      recommendations := ["Consider optimizing systems with performance bottlenecks"] }

/-- Modelled from the spec (§4.1 `benchmarkFor`): "case-insensitive,
    whitespace-normalized lookup against a fixed mapping of logical system
    name → benchmark" — the mapping's keys are underscore-separated, so
    whitespace normalization maps spaces to underscores.  This is the
    spec-worded lookup that claim C5 attributes to the code; it is compared
    against `systemNameOf`/`performance_benchmarks` above. -/
def benchmark_for_spec (systemName : String) : Option Benchmark :=
  performance_benchmarks
    (String.mk (replaceChars (" ".toList) ("_".toList) (lowerChars systemName.toList)))

/-! ## `TestOrchestrator._generate_comprehensive_report` (summary part) -/

/-- The `report["summary"]` dict. -/
structure Summary where
  total_tests : Nat
  passed : Nat
  failed : Nat
  errors : Nat
  skipped : Nat
  success_rate : ℚ
  average_coverage : ℚ
deriving Repr

/-- The statistics part of `_generate_comprehensive_report` over
    `self.results`: status tallies, `success_rate`, and
    `avg_coverage = sum(...) / len(coverage_results) if coverage_results
    else 0`. -/
def generate_summary (results : List TestResult) : Summary :=
  let total_tests := results.length
  let passed_tests := (results.filter (fun r => decide (r.status = "passed"))).length
  let failed_tests := (results.filter (fun r => decide (r.status = "failed"))).length
  let error_tests := (results.filter (fun r => decide (r.status = "error"))).length
  let skipped_tests := (results.filter (fun r => decide (r.status = "skipped"))).length
  let coverage_results := results.filter (fun r => r.coverage.isSome)
  let avg_coverage : ℚ :=
    if coverage_results.isEmpty then 0
    else (coverage_results.filterMap (fun r => r.coverage)).sum / (coverage_results.length : ℚ)
  { total_tests := total_tests, passed := passed_tests, failed := failed_tests,
    errors := error_tests, skipped := skipped_tests,
    success_rate := if total_tests > 0 then (passed_tests : ℚ) / (total_tests : ℚ) * 100 else 0,
    average_coverage := avg_coverage }

/-- Modelled from the spec (§4.5): "Coverage: average only over outcomes with
    a present coverage value; absent when no outcome reports coverage."  The
    spec-worded average, compared against `generate_summary` for claim C9. -/
def average_coverage_spec (results : List TestResult) : Option ℚ :=
  let covs := results.filterMap (fun r => r.coverage)
  if covs.isEmpty then none else some (covs.sum / (covs.length : ℚ))

/-! ## `TestOrchestrator._generate_recommendations` -/

/-- The low-coverage filter `r.coverage and r.coverage < 80` of
    `_generate_recommendations`.  Python truthiness: `None` and `0.0` are
    falsy, so a present coverage of exactly `0` does not pass the filter. -/
def lowCoverageFlag (r : TestResult) : Bool :=
  match r.coverage with
  | some c => decide (c ≠ 0) && decide (c < 80)
  | none => false

/-- `TestOrchestrator._generate_recommendations()` over `self.results`. -/
def generate_recommendations (results : List TestResult) : List String :=
  let low_coverage := results.filter lowCoverageFlag
  let recommendations : List String :=
    if low_coverage.isEmpty then []
    else ["Improve test coverage for " ++ toString low_coverage.length ++ " test suites"]
  let slow_tests := results.filter (fun r => decide (r.duration > 60))
  let recommendations :=
    if slow_tests.isEmpty then recommendations
    else recommendations ++ ["Optimize " ++ toString slow_tests.length ++ " slow-running tests"]
  let error_tests := results.filter (fun r => decide (r.status = "error"))
  let recommendations :=
    if error_tests.isEmpty then recommendations
    else recommendations ++ ["Fix " ++ toString error_tests.length ++ " test errors"]
  if recommendations.isEmpty then ["All tests are performing well!"] else recommendations

/-! ## Sample outcomes used by concrete counterexamples/witnesses -/

/-- A performance outcome for the registry suite "Load Balancer System Tests"
    whose measured latency (1000 ms) far exceeds the `load_balancer`
    benchmark (50 ms). -/
def sample_load_balancer_perf : TestResult :=
  { name := "Load Balancer System Tests", type := "performance", status := "passed",
    duration := 1, message := "Load Balancer System Tests completed successfully",
    performance_metrics := some { latency_ms := some 1000 } }

/-- An outcome reporting no coverage value. -/
def sample_no_coverage : TestResult :=
  { name := "Go Unit Tests", type := "unit", status := "failed", duration := 1,
    message := "Go Unit Tests failed with return code 1" }

/-- An outcome with a present coverage value of exactly 0. -/
def sample_zero_coverage : TestResult :=
  { name := "Frontend Unit Tests", type := "unit", status := "passed", duration := 1,
    message := "Frontend Unit Tests completed successfully", coverage := some 0 }

/-- An outcome in `error` status. -/
def sample_error_result : TestResult :=
  { name := "E2E Tests", type := "e2e", status := "error", duration := 1,
    message := "E2E Tests timed out after 300 seconds",
    error_details := some "Test execution timeout" }

/-! ## Helper lemmas -/

theorem numVal_nonneg (a b : List Char) : 0 ≤ numVal a b := by
  unfold numVal
  positivity

theorem numVal_nil_frac (ds : List Char) : numVal ds [] = (digitsVal ds : ℚ) := by
  unfold numVal
  simp [digitsVal]

theorem numVal_two : numVal ['2'] [] = (2 : ℚ) := by
  rw [numVal_nil_frac, show digitsVal ['2'] = 2 from rfl]
  norm_num

theorem numVal_42 : numVal ['4', '2'] [] = (42 : ℚ) := by
  rw [numVal_nil_frac, show digitsVal ['4', '2'] = 42 from rfl]
  norm_num

theorem numVal_1200 : numVal ['1', '2', '0', '0'] [] = (1200 : ℚ) := by
  rw [numVal_nil_frac, show digitsVal ['1', '2', '0', '0'] = 1200 from rfl]
  norm_num

theorem numVal_875 : numVal ['8', '7'] ['5'] = (87.5 : ℚ) := by
  unfold numVal
  rw [show digitsVal ['8', '7'] = 87 from rfl, show digitsVal ['5'] = 5 from rfl,
    show (['5'] : List Char).length = 1 from rfl]
  norm_num

theorem matchNumThen_nonneg (after : List Char → Bool) (cs : List Char) (v : ℚ)
    (h : matchNumThen after cs = some v) : 0 ≤ v := by
  simp only [matchNumThen] at h
  split at h
  · exact Option.noConfusion h
  · split at h
    · split at h
      · exact (Option.some.inj h) ▸ numVal_nonneg _ _
      · split at h
        · exact (Option.some.inj h) ▸ numVal_nonneg _ _
        · exact Option.noConfusion h
    · split at h
      · exact (Option.some.inj h) ▸ numVal_nonneg _ _
      · exact Option.noConfusion h

theorem searchNumThen_nonneg (after : List Char → Bool) (cs : List Char) (v : ℚ)
    (h : searchNumThen after cs = some v) : 0 ≤ v := by
  induction cs with
  | nil => exact Option.noConfusion h
  | cons c rest ih =>
    simp only [searchNumThen] at h
    split at h
    · rename_i v' heq
      exact (Option.some.inj h) ▸ matchNumThen_nonneg _ _ _ heq
    · exact ih h

theorem searchCoverageNum_nonneg (cs : List Char) (v : ℚ)
    (h : searchCoverageNum cs = some v) : 0 ≤ v := by
  induction cs with
  | nil => exact Option.noConfusion h
  | cons c rest ih =>
    simp only [searchCoverageNum] at h
    split at h
    · rename_i v' heq
      split at heq
      · exact (Option.some.inj h) ▸ matchNumThen_nonneg _ _ _ heq
      · exact Option.noConfusion heq
    · exact ih h

theorem scanLines_nonneg (p : List Char → Bool) (f : List Char → Option ℚ)
    (ls : List (List Char)) (v : ℚ)
    (hf : ∀ l w, f l = some w → 0 ≤ w)
    (h : scanLines p f ls = some v) : 0 ≤ v := by
  induction ls with
  | nil => exact Option.noConfusion h
  | cons l ls ih =>
    simp only [scanLines] at h
    split at h
    · split at h
      · rename_i w heq
        exact (Option.some.inj h) ▸ hf _ _ heq
      · exact ih h
    · exact ih h

theorem analyze_performance_bottlenecks_eq (rs : List TestResult) :
    (analyze_performance rs).bottlenecks
      = rs.foldl (fun acc r => acc ++ bottlenecksOf r) [] := by
  unfold analyze_performance
  dsimp only
  split <;> rfl

/-! ## Claim theorems -/

/-- Claim C1: for every selected sequence of suites, `run_all_tests` produces
    exactly one `TestResult` per selected `TestSuite` — even when a suite
    times out or its future raises — so the outcome collection (in any
    completion order) has the same cardinality as the selected suite list and
    no suite is silently dropped. -/
theorem runAll_one_outcome_per_selected_suite
    (runner : TestSuite → FutureResult) (iu ii ie ip iui isys : Bool)
    (suites : List TestSuite) (outs : List TestResult)
    (h : outs.Perm (run_all_tests runner iu ii ie ip iui isys suites)) :
    outs.length = (filtered_suites iu ii ie ip iui isys suites).length := by
  rw [h.length_eq]
  simp [run_all_tests, collect_results]

/-- Witness for C1: with the full registry selected and every suite timing
    out, the collected outcomes number exactly the selected suites. -/
theorem runAll_one_outcome_per_selected_suite_witness :
    (run_all_tests (fun s => FutureResult.ok (run_test_suite s ProcResult.timedOut 0))
        true true true true true true test_suites).length
      = (filtered_suites true true true true true true test_suites).length :=
  runAll_one_outcome_per_selected_suite
    (fun s => FutureResult.ok (run_test_suite s ProcResult.timedOut 0))
    true true true true true true test_suites _ (List.Perm.refl _)

/-- Claim C2: `_run_test_suite` classifies exit code 0 as `passed`, any
    nonzero exit code as `failed`, an elapsed timeout as `error` with a
    message containing the timeout value, and a failure to launch (any
    exception) as `error` with the causing detail captured rather than
    propagated. -/
theorem run_suite_status_classification
    (suite : TestSuite) (rc : Int) (out err msg : String) (elapsed : ℚ) :
    (run_test_suite suite (ProcResult.completed 0 out err) elapsed).status = "passed"
    ∧ (rc ≠ 0 → (run_test_suite suite (ProcResult.completed rc out err) elapsed).status = "failed")
    ∧ (run_test_suite suite ProcResult.timedOut elapsed).status = "error"
    ∧ (∃ a b, (run_test_suite suite ProcResult.timedOut elapsed).message
        = a ++ toString suite.timeout ++ b)
    ∧ (run_test_suite suite (ProcResult.raised msg) elapsed).status = "error"
    ∧ (run_test_suite suite (ProcResult.raised msg) elapsed).error_details = some msg := by
  refine ⟨rfl, fun h => ?_, rfl,
    ⟨suite.name ++ " timed out after ", " seconds", rfl⟩, rfl, rfl⟩
  simp [run_test_suite, h]

/-- Witness for C2: a suite exiting with code 7 is classified `failed`. -/
theorem run_suite_status_classification_witness :
    (run_test_suite
        { name := "Backend Unit Tests", type := "unit",
          command := "npm run test:backend", working_dir := "." }
        (ProcResult.completed 7 "" "") 1).status = "failed" :=
  (run_suite_status_classification
    { name := "Backend Unit Tests", type := "unit",
      command := "npm run test:backend", working_dir := "." }
    7 "" "" "" 1).2.1 (by decide)

/-- Claim C3: every exception internal to running one suite is caught and
    converted into an `error`-status outcome whose message and error detail
    carry the exception's message — `_run_test_suite` never raises past its
    own boundary (it is a total function of the reified process event). -/
theorem run_suite_exception_converted_to_error_outcome
    (suite : TestSuite) (msg : String) (elapsed : ℚ) :
    (run_test_suite suite (ProcResult.raised msg) elapsed).status = "error"
    ∧ (run_test_suite suite (ProcResult.raised msg) elapsed).error_details = some msg
    ∧ ∃ a, (run_test_suite suite (ProcResult.raised msg) elapsed).message = a ++ msg :=
  ⟨rfl, rfl, ⟨suite.name ++ " failed with exception: ", rfl⟩⟩

/-- Claim C4: on every exit path of `_run_test_suite` — normal completion,
    nonzero exit, timeout, or exception — the `finally` block restores the
    working directory in effect before the call, and the produced outcome is
    unchanged by the scoped working-directory mutation. -/
theorem run_suite_restores_working_directory
    (s0 : RunState) (suite : TestSuite) (proc : ProcResult) (elapsed : ℚ) :
    (run_test_suite_st s0 suite proc elapsed).2 = s0
    ∧ (run_test_suite_st s0 suite proc elapsed).1 = run_test_suite suite proc elapsed :=
  ⟨rfl, rfl⟩

/-- Counterexample to claim C5: the code's lookup lowercases and strips
    " system tests" but performs no whitespace normalization, so the outcome
    "Load Balancer System Tests" (stripped name "load balancer") never
    matches the underscore key `load_balancer`.  The spec-worded lookup
    (`benchmark_for_spec`) finds the 50 ms benchmark, and the measured
    latency 1000 ms exceeds it, so the claim requires a "high latency" flag
    and a `needs_improvement` verdict — yet the code flags nothing and
    reports `good`. -/
theorem analyze_performance_whitespace_lookup_counterexample :
    (analyze_performance [sample_load_balancer_perf]).bottlenecks = []
    ∧ (analyze_performance [sample_load_balancer_perf]).overall_performance = "good"
    ∧ benchmark_for_spec "Load Balancer" = some ⟨50, 2000⟩
    ∧ sample_load_balancer_perf.performance_metrics = some { latency_ms := some 1000 }
    ∧ (50 : ℚ) < 1000 :=
  ⟨by decide, by decide, by decide, rfl, by norm_num⟩

/-- Claim C5 as amended: the benchmark is looked up by lowercasing the
    outcome name and removing " system tests", with *no* whitespace
    normalization, and by exact match in the fixed mapping.  When that lookup
    succeeds and metrics are present, a bottleneck is flagged exactly when
    the latency exceeds `max_latency_ms` or the throughput is below
    `min_throughput_rps`; no flag is produced when metrics are absent; and
    the verdict is `needs_improvement` iff at least one bottleneck is
    flagged, else `good`. -/
theorem analyze_performance_bottleneck_flagging :
    (∀ (r : TestResult) (pm : PerfMetrics) (b : Benchmark),
       r.performance_metrics = some pm → pm ≠ emptyMetrics →
       performance_benchmarks (systemNameOf r.name) = some b →
       ((analyze_performance [r]).bottlenecks ≠ [] ↔
         (∃ l, pm.latency_ms = some l ∧ b.max_latency_ms < l)
         ∨ (∃ t, pm.throughput_rps = some t ∧ t < b.min_throughput_rps)))
    ∧ (∀ r : TestResult, r.performance_metrics = none →
       (analyze_performance [r]).bottlenecks = [])
    ∧ (∀ rs : List TestResult,
       ((analyze_performance rs).overall_performance = "needs_improvement"
         ↔ (analyze_performance rs).bottlenecks ≠ [])
       ∧ ((analyze_performance rs).overall_performance = "good"
         ↔ (analyze_performance rs).bottlenecks = [])) := by
  refine ⟨?_, ?_, ?_⟩
  · intro r pm b hpm hne hb
    have hbl : (analyze_performance [r]).bottlenecks = bottlenecksOf r := by
      rw [analyze_performance_bottlenecks_eq]
      simp
    rw [hbl]
    unfold bottlenecksOf
    rw [hpm]
    simp only [if_neg hne, hb]
    rcases hL : pm.latency_ms with _ | l <;> rcases hT : pm.throughput_rps with _ | t <;>
      simp only [hL, hT] <;>
      first
        | (split_ifs <;> simp_all)
        | simp_all
  · intro r h
    rw [analyze_performance_bottlenecks_eq]
    simp [bottlenecksOf, h]
  · intro rs
    unfold analyze_performance
    dsimp only
    split
    · rename_i h
      rw [List.isEmpty_iff] at h
      simp [h]
    · rename_i h
      rw [List.isEmpty_iff] at h
      simp [h]

/-- Witness for C5 (amended): a single-word system name ("TinyURL System
    Tests" → "tinyurl") does match its benchmark, and a 150 ms latency
    against the 100 ms maximum is flagged. -/
theorem analyze_performance_bottleneck_flagging_witness :
    (analyze_performance
        [{ name := "TinyURL System Tests", type := "performance", status := "passed",
           duration := 1, message := "",
           performance_metrics := some { latency_ms := some 150 } }]).bottlenecks ≠ [] :=
  (analyze_performance_bottleneck_flagging.1
      { name := "TinyURL System Tests", type := "performance", status := "passed",
        duration := 1, message := "",
        performance_metrics := some { latency_ms := some 150 } }
      { latency_ms := some 150 } ⟨100, 1000⟩ rfl (by decide) (by decide)).mpr
    (Or.inl ⟨150, rfl, by norm_num⟩)

/-- Counterexample to claim C6: a performance suite whose command exits 1 is
    classified `failed`, yet its performance metrics are still extracted from
    stdout — extraction is not restricted to the on-`passed` step. -/
theorem perf_metrics_extracted_on_failed_counterexample :
    (run_test_suite
        { name := "Performance Tests", type := "performance",
          command := "npm run test:performance", working_dir := "." }
        (ProcResult.completed 1 "latency: 42 ms" "") 2).status = "failed"
    ∧ (run_test_suite
        { name := "Performance Tests", type := "performance",
          command := "npm run test:performance", working_dir := "." }
        (ProcResult.completed 1 "latency: 42 ms" "") 2).performance_metrics
      = some { latency_ms := some 42 } := by
  constructor
  · decide
  · calc (run_test_suite
          { name := "Performance Tests", type := "performance",
            command := "npm run test:performance", working_dir := "." }
          (ProcResult.completed 1 "latency: 42 ms" "") 2).performance_metrics
        = some { latency_ms := some (numVal ['4', '2'] []) } := rfl
      _ = some { latency_ms := some 42 } := by rw [numVal_42]

/-- Claim C6 as amended: coverage extraction is attempted exactly when the
    exit code is 0 (failed and error outcomes have absent coverage), while
    performance metrics are extracted whenever the process ran to completion
    and `suite.type = "performance"` — regardless of the exit code, not only
    on `passed` — and both are absent on the timeout and exception paths. -/
theorem metric_extraction_gating (suite : TestSuite) (rc : Int) (out err msg : String)
    (elapsed : ℚ) :
    ((run_test_suite suite (ProcResult.completed rc out err) elapsed).coverage
      = if rc = 0 then extract_coverage out suite.type else none)
    ∧ ((run_test_suite suite (ProcResult.completed rc out err) elapsed).performance_metrics
      = if suite.type = "performance" then extract_performance_metrics out else none)
    ∧ (run_test_suite suite ProcResult.timedOut elapsed).coverage = none
    ∧ (run_test_suite suite ProcResult.timedOut elapsed).performance_metrics = none
    ∧ (run_test_suite suite (ProcResult.raised msg) elapsed).coverage = none
    ∧ (run_test_suite suite (ProcResult.raised msg) elapsed).performance_metrics = none :=
  ⟨rfl, rfl, rfl, rfl, rfl, rfl⟩

/-- Counterexample to claim C7: the line "speed: 42 ms" does not contain the
    keyword "latency", yet `latency_ms` is populated — the branch guard is
    keyword *or* unit marker, not a required pairing. -/
theorem perf_metrics_no_keyword_pairing_counterexample :
    extract_performance_metrics "speed: 42 ms" = some { latency_ms := some 42 }
    ∧ charsContain (lowerChars "speed: 42 ms".toList) ("latency".toList) = false := by
  constructor
  · calc extract_performance_metrics "speed: 42 ms"
        = some { latency_ms := some (numVal ['4', '2'] []) } := rfl
      _ = some { latency_ms := some 42 } := by rw [numVal_42]
  · decide

/-- Claim C7 as amended: each field is populated from any line on which the
    first decimal number followed (after optional whitespace) by the unit
    marker matches — the keyword is an alternative line guard, not a
    required pairing; the last matching line wins per field; absence is
    returned exactly when no field was populated; and on
    "latency: 42 ms\nthroughput: 1200 rps" the result is
    {latency_ms := 42, throughput_rps := 1200}. -/
theorem extract_performance_metrics_behavior :
    extract_performance_metrics "latency: 42 ms\nthroughput: 1200 rps"
      = some { latency_ms := some 42, throughput_rps := some 1200 }
    ∧ extract_performance_metrics "latency: 1 ms\nlatency: 2 ms"
      = some { latency_ms := some 2 }
    ∧ extract_performance_metrics "" = none
    ∧ ∀ (output : String) (pm : PerfMetrics),
        extract_performance_metrics output = some pm → pm ≠ emptyMetrics := by
  refine ⟨?_, ?_, by decide, ?_⟩
  · calc extract_performance_metrics "latency: 42 ms\nthroughput: 1200 rps"
        = some { latency_ms := some (numVal ['4', '2'] []),
                 throughput_rps := some (numVal ['1', '2', '0', '0'] []) } := rfl
      _ = some { latency_ms := some 42, throughput_rps := some 1200 } := by
          rw [numVal_42, numVal_1200]
  · calc extract_performance_metrics "latency: 1 ms\nlatency: 2 ms"
        = some { latency_ms := some (numVal ['2'] []) } := rfl
      _ = some { latency_ms := some 2 } := by rw [numVal_two]
  intro output pm h
  simp only [extract_performance_metrics] at h
  split at h
  · exact Option.noConfusion h
  · rename_i hme
    exact (Option.some.inj h) ▸ hme

/-- Witness for C7 (amended): the keywordless line "speed: 42 ms" yields a
    populated (hence non-empty) metrics mapping. -/
theorem extract_performance_metrics_behavior_witness :
    ({ latency_ms := some 42 } : PerfMetrics) ≠ emptyMetrics :=
  extract_performance_metrics_behavior.2.2.2 "speed: 42 ms"
    { latency_ms := some 42 }
    (by calc extract_performance_metrics "speed: 42 ms"
          = some { latency_ms := some (numVal ['4', '2'] []) } := rfl
        _ = some { latency_ms := some 42 } := by rw [numVal_42])

/-- Claim C8: `_extract_coverage` returns 87.5 on the "mvn" totals example,
    absence on unrecognized input, and — being a total function whose only
    numeric source is a matched non-negative decimal — every produced value
    is a (non-negative) percentage and no input propagates an error. -/
theorem extract_coverage_examples_and_totality :
    extract_coverage "... Total ... 87.5% ..." "mvn" = some (87.5 : ℚ)
    ∧ extract_coverage "no coverage info here" "unit" = none
    ∧ ∀ (output test_type : String) (x : ℚ),
        extract_coverage output test_type = some x → 0 ≤ x := by
  refine ⟨?_, by decide, ?_⟩
  · calc extract_coverage "... Total ... 87.5% ..." "mvn"
        = some (numVal ['8', '7'] ['5']) := rfl
      _ = some (87.5 : ℚ) := by rw [numVal_875]
  intro output ttype x h
  simp only [extract_coverage] at h
  split at h
  · exact scanLines_nonneg _ _ _ _ (fun l w hw => searchNumThen_nonneg _ _ _ hw) h
  · split at h
    · exact scanLines_nonneg _ _ _ _ (fun l w hw => searchNumThen_nonneg _ _ _ hw) h
    · split at h
      · exact scanLines_nonneg _ _ _ _ (fun l w hw => searchCoverageNum_nonneg _ _ hw) h
      · exact Option.noConfusion h

/-- Witness for C8: the extracted example value 87.5 is non-negative. -/
theorem extract_coverage_examples_and_totality_witness :
    (0 : ℚ) ≤ (87.5 : ℚ) :=
  extract_coverage_examples_and_totality.2.2 "... Total ... 87.5% ..." "mvn" 87.5
    (by calc extract_coverage "... Total ... 87.5% ..." "mvn"
          = some (numVal ['8', '7'] ['5']) := rfl
        _ = some (87.5 : ℚ) := by rw [numVal_875])

/-- Counterexample to claim C9: over a result set in which no outcome reports
    coverage, the report summary's `average_coverage` is the present value 0
    (`... if coverage_results else 0`), not absent — while the spec-worded
    average (`average_coverage_spec`) is absent. -/
theorem average_coverage_zero_not_absent_counterexample :
    (generate_summary [sample_no_coverage]).average_coverage = 0
    ∧ average_coverage_spec [sample_no_coverage] = none :=
  ⟨by decide, by decide⟩

/-- Claim C9 as amended: the average is computed only over outcomes with a
    present coverage value (outcomes with absent coverage do not change it),
    and when no outcome reports coverage the summary records the value 0
    rather than absence. -/
theorem average_coverage_present_only :
    (∀ (results : List TestResult) (r : TestResult), r.coverage = none →
       (generate_summary (r :: results)).average_coverage
         = (generate_summary results).average_coverage)
    ∧ (∀ results : List TestResult, (∀ r ∈ results, r.coverage = none) →
       (generate_summary results).average_coverage = 0) := by
  constructor
  · intro results r h
    simp [generate_summary, List.filter_cons, h]
  · intro results h
    have hfil : results.filter (fun r => r.coverage.isSome) = [] := by
      rw [List.filter_eq_nil_iff]
      intro a ha
      simp [h a ha]
    simp [generate_summary, hfil]

/-- Witness for C9 (amended): over the empty result set the summary's average
    coverage is the (present) value 0. -/
theorem average_coverage_present_only_witness :
    (generate_summary ([] : List TestResult)).average_coverage = 0 :=
  average_coverage_present_only.2 [] (by simp)

/-- Counterexample to claim C10: an outcome with a present coverage value of
    exactly 0 — which is below the 80 threshold — is not flagged, because the
    filter `r.coverage and r.coverage < 80` treats the float `0.0` as falsy;
    the run instead emits only the positive statement. -/
theorem recommendations_zero_coverage_counterexample :
    generate_recommendations [sample_zero_coverage] = ["All tests are performing well!"]
    ∧ sample_zero_coverage.coverage = some 0
    ∧ (0 : ℚ) < 80 :=
  ⟨by decide, rfl, by norm_num⟩

/-- Claim C10 as amended: the recommendations flag, with a count, the suites
    whose coverage is present, nonzero and below 80 (a present coverage of
    exactly 0 is skipped by the truthiness test), the suites with duration
    above 60 seconds, and the suites in `error` status; exactly one positive
    statement is emitted when none of these rules applies. -/
theorem recommendations_rules :
    (∀ results : List TestResult, results.filter lowCoverageFlag ≠ [] →
       ("Improve test coverage for " ++ toString (results.filter lowCoverageFlag).length
         ++ " test suites") ∈ generate_recommendations results)
    ∧ (∀ results : List TestResult,
         results.filter (fun r => decide (r.duration > 60)) ≠ [] →
       ("Optimize " ++ toString (results.filter (fun r => decide (r.duration > 60))).length
         ++ " slow-running tests") ∈ generate_recommendations results)
    ∧ (∀ results : List TestResult,
         results.filter (fun r => decide (r.status = "error")) ≠ [] →
       ("Fix " ++ toString (results.filter (fun r => decide (r.status = "error"))).length
         ++ " test errors") ∈ generate_recommendations results)
    ∧ (∀ results : List TestResult,
         results.filter lowCoverageFlag = [] →
         results.filter (fun r => decide (r.duration > 60)) = [] →
         results.filter (fun r => decide (r.status = "error")) = [] →
         generate_recommendations results = ["All tests are performing well!"]) := by
  refine ⟨?_, ?_, ?_, ?_⟩
  · intro results h
    have h1 : (results.filter lowCoverageFlag).isEmpty = false := by
      simpa [List.isEmpty_iff] using h
    unfold generate_recommendations
    by_cases h2 : (results.filter (fun r => decide (r.duration > 60))).isEmpty = true <;>
      by_cases h3 : (results.filter (fun r => decide (r.status = "error"))).isEmpty = true <;>
      simp [h1, h2, h3]
  · intro results h
    have h2 : (results.filter (fun r => decide (r.duration > 60))).isEmpty = false := by
      simpa [List.isEmpty_iff] using h
    unfold generate_recommendations
    by_cases h1 : (results.filter lowCoverageFlag).isEmpty = true <;>
      by_cases h3 : (results.filter (fun r => decide (r.status = "error"))).isEmpty = true <;>
      simp [h1, h2, h3]
  · intro results h
    have h3 : (results.filter (fun r => decide (r.status = "error"))).isEmpty = false := by
      simpa [List.isEmpty_iff] using h
    unfold generate_recommendations
    by_cases h1 : (results.filter lowCoverageFlag).isEmpty = true <;>
      by_cases h2 : (results.filter (fun r => decide (r.duration > 60))).isEmpty = true <;>
      simp [h1, h2, h3]
  · intro results h1 h2 h3
    simp [generate_recommendations, h1, h2, h3]

/-- Witness for C10 (amended): one `error`-status outcome produces the
    "Fix 1 test errors" recommendation. -/
theorem recommendations_rules_witness :
    ("Fix " ++ toString (([sample_error_result].filter
        (fun r => decide (r.status = "error"))).length) ++ " test errors")
      ∈ generate_recommendations [sample_error_result] :=
  recommendations_rules.2.2.1 [sample_error_result] (by decide)
